import Mathlib

/-!
Verification development for the IMIGO LINE-bot repository.

The definitions below are a shallow embedding of the repository's
persistence layer (`src/database/database.py`), its configuration tables
(`src/config.py`), the AI service (`src/services/ai_service.py`), the
translation service (`src/services/translation_service.py`) and the
webhook / text-message orchestrator (`src/main.py`).

Modelling conventions:
* the SQL store is a `DB` value: `user_preferences` is the
  `user_preferences` table (one row per user id, kept in insertion order),
  `conversations` is the `conversations` table in chronological
  (insertion) order, `group_settings` the `group_settings` table;
* external collaborators (the Gemini chat completion, the OpenAI-style
  translation completion, the LINE messaging API) are out of scope per the
  spec; their outcomes enter as explicit parameters (`LLMResult`,
  `Except Unit String`), and the calls the orchestrator makes to them are
  recorded as `Action`s;
* a Python exception with no handler on its path is modelled by an
  `Except`-valued function (for store operations whose ORM access is
  broken) or by an `uncaughtError` outcome of the orchestrator;
* Python exceptions around store writes are modelled by boolean
  "this write succeeded" parameters; a failed write leaves the store
  unchanged (the SQLAlchemy session rolls back);
* Python `str.strip`, `str.lower`, `str.split()` and `str.startswith`
  are modelled by `py_strip`, `py_lower`, `py_split` and `py_startswith`,
  structural functions over the string's character list (their Lean
  library counterparts recurse on byte positions, which the kernel
  cannot evaluate).
-/

namespace Imigo

/-- A row of the `conversations` table (src/database/models.py:9-17),
in chronological insertion order inside `DB.conversations`. The opaque
`id` and the `created_at` timestamp are represented by the position in
the list. -/
structure Conversation where
  user_id : String
  role : String
  content : String
deriving DecidableEq, Repr

/-- A row of the `group_settings` table as the mapped class
`models.GroupSettings` declares it (src/database/models.py:30-38):
columns `group_id`, `translation_enabled` and nullable
`target_language`. Note the mismatch with src/database/database.py,
which reads and writes attributes `translate_enabled` and `enabled_by`
that are NOT columns of this class — see `get_group_settings` and
`enable_group_translation` below. Timestamps are represented by list
position as for `Conversation`. -/
structure GroupSettingsRow where
  group_id : String
  translation_enabled : Bool
  target_language : Option String
deriving DecidableEq, Repr

/-- The persistent store: the three tables owned by the core
(src/database/models.py). `user_preferences` maps `user_id` to the
stored `language` string. -/
structure DB where
  user_preferences : List (String × String)
  conversations : List Conversation
  group_settings : List GroupSettingsRow
deriving DecidableEq, Repr

/-- `DatabaseService.save_message` (src/database/database.py:31-34):
inserts one `Conversation` row. -/
def save_message (db : DB) (user_id role content : String) : DB :=
  { db with conversations := db.conversations ++ [⟨user_id, role, content⟩] }

/-- The rows of the `conversations` table belonging to one user, in
chronological order (the full history the `created_at DESC` query ranges
over). -/
def user_history (db : DB) (user_id : String) : List Conversation :=
  db.conversations.filter (fun c => c.user_id == user_id)

/-- `DatabaseService.get_conversation_history`
(src/database/database.py:36-52): select the user's rows ordered by
`created_at` descending, `LIMIT limit`, then reverse in Python, so the
result is oldest-first. -/
def get_conversation_history (db : DB) (user_id : String) (limit : Nat) :
    List Conversation :=
  let rows := ((user_history db user_id).reverse).take limit
  rows.reverse

/-- `DatabaseService.clear_user_conversation`
(src/database/database.py:54-61): delete all of the user's rows and
return the deleted row count. -/
def clear_user_conversation (db : DB) (user_id : String) : DB × Nat :=
  let remaining := db.conversations.filter (fun c => c.user_id != user_id)
  ({ db with conversations := remaining },
    (db.conversations.filter (fun c => c.user_id == user_id)).length)

/-- `DatabaseService.set_user_language` (src/database/database.py:73-83):
upsert by `user_id`. Note: the stored `language` string is NOT validated
here; any string is persisted verbatim. -/
def set_user_language (db : DB) (user_id language : String) : DB :=
  if (db.user_preferences.find? (fun p => p.1 == user_id)).isSome then
    let updated :=
      db.user_preferences.map
        (fun p => if p.1 == user_id then (p.1, language) else p)
    { db with user_preferences := updated }
  else
    { db with user_preferences := db.user_preferences ++ [(user_id, language)] }

/-- The raw preference lookup: the scalar returned by the
`select(UserPreferences.language)` query in
src/database/database.py:85-91 (`none` when the user has no row). -/
def lookup_user_language (db : DB) (user_id : String) : Option String :=
  (db.user_preferences.find? (fun p => p.1 == user_id)).map (fun p => p.2)

/-- `DatabaseService.get_user_language` (src/database/database.py:85-92):
returns `lang or "en"`, i.e. the stored language when it is a non-empty
string and `"en"` otherwise — the function never returns `None`. -/
def get_user_language (db : DB) (user_id : String) : String :=
  match lookup_user_language db user_id with
  | some lang => if lang == "" then "en" else lang
  | none => "en"

/-- The dict `DatabaseService.get_group_settings` would build
(src/database/database.py:139-143). No execution constructs it: the
attribute reads `settings.translate_enabled` and `settings.enabled_by`
fail on the mapped class (see `get_group_settings`). -/
structure GroupSettingsView where
  translate_enabled : Bool
  target_language : Option String
  enabled_by : String
deriving DecidableEq, Repr

/-- `DatabaseService.get_group_settings`
(src/database/database.py:132-144) against the actual mapped class:
with no row for the group, the function returns `None` (`.ok none`).
With an existing row it evaluates `settings.translate_enabled`
(database.py:140) — an attribute `models.GroupSettings` does not define
(its column is `translation_enabled`, and there is no `enabled_by`) —
so it raises `AttributeError`, modelled as `.error ()`. The `.ok (some
view)` value is never produced. -/
def get_group_settings (db : DB) (group_id : String) :
    Except Unit (Option GroupSettingsView) :=
  match db.group_settings.find? (fun g => g.group_id == group_id) with
  | some _ => .error ()
  | none => .ok none

/-- `DatabaseService.enable_group_translation`
(src/database/database.py:95-119) against the actual mapped class. The
insert path constructs
`GroupSettings(group_id=..., translate_enabled=True, target_language=...,
enabled_by=...)`; `translate_enabled` and `enabled_by` are not columns
of `models.GroupSettings`, so the declarative constructor raises
`TypeError` (`.error ()`) — through this service a row can never be
created. The update path (reachable only for a row seeded outside this
code) assigns `translate_enabled` and `enabled_by` as plain non-column
instance attributes, which are silently not persisted; only the real
column `target_language` (and `updated_at`) is written. -/
def enable_group_translation (db : DB)
    (group_id target_language _enabled_by : String) : Except Unit DB :=
  if (db.group_settings.find? (fun g => g.group_id == group_id)).isSome then
    let updated :=
      db.group_settings.map
        (fun g =>
          if g.group_id == group_id then
            { g with target_language := some target_language }
          else g)
    .ok { db with group_settings := updated }
  else
    .error ()

/-- The `"id"` entry of `MESSAGES` (src/config.py:10-37). -/
def messages_id : List (String × String) :=
  [("welcome", "👋 Selamat datang di IMIGO!\n\nSaya adalah asisten AI untuk membantu pekerja migran Indonesia di Taiwan.\n\nSaya dapat membantu dengan:\n• Informasi ketenagakerjaan\n• Layanan pemerintah\n• Terjemahan bahasa\n• Informasi kesehatan\n• Kehidupan sehari-hari\n\nSilakan ajukan pertanyaan Anda!"),
   ("cleared", "✅ Riwayat percakapan telah dihapus.\nAnda dapat memulai percakapan baru!"),
   ("language_changed", "✅ Bahasa telah diubah ke Bahasa Indonesia.\nSaya sekarang akan merespons dalam bahasa Indonesia!"),
   ("language_select", "🌐 Pilih bahasa Anda:\nKetik: /lang id (Indonesia)\n/lang zh (中文)\n/lang en (English)"),
   ("help", "🤖 Cara menggunakan IMIGO:\n\nKetik pertanyaan Anda dalam bahasa apa pun, dan saya akan membantu!\n\nKategori bantuan:\n• 💼 Masalah pekerjaan\n• 🏛️ Layanan pemerintah\n• 🏥 Informasi kesehatan\n• 🌐 Bantuan terjemahan\n• 🏠 Kehidupan sehari-hari\n• 🚨 Kontak darurat")]

/-- The `"zh"` entry of `MESSAGES` (src/config.py:38-65). -/
def messages_zh : List (String × String) :=
  [("welcome", "👋 歡迎使用 IMIGO！\n\n我是協助在台灣的印尼移工的 AI 助手。\n\n我可以幫助您：\n• 勞工資訊\n• 政府服務\n• 語言翻譯\n• 健康資訊\n• 日常生活\n\n請隨時提出您的問題！"),
   ("cleared", "✅ 對話記錄已清除。\n您可以開始新的對話！"),
   ("language_changed", "✅ 語言已更改為繁體中文。\n我現在將用中文回應！"),
   ("language_select", "🌐 選擇您的語言：\n輸入: /lang id (印尼文)\n/lang zh (中文)\n/lang en (英文)"),
   ("help", "🤖 如何使用 IMIGO：\n\n用任何語言輸入您的問題，我會幫助您！\n\n協助類別：\n• 💼 工作問題\n• 🏛️ 政府服務\n• 🏥 健康資訊\n• 🌐 翻譯協助\n• 🏠 日常生活\n• 🚨 緊急聯絡")]

/-- The `"en"` entry of `MESSAGES` (src/config.py:66-93). -/
def messages_en : List (String × String) :=
  [("welcome", "👋 Welcome to IMIGO!\n\nI'm an AI assistant to help Indonesian migrant workers in Taiwan.\n\nI can help with:\n• Labor information\n• Government services\n• Language translation\n• Health information\n• Daily life\n\nPlease ask me anything!"),
   ("cleared", "✅ Chat history has been cleared.\nYou can start a new conversation!"),
   ("language_changed", "✅ Language changed to English.\nI will now respond in English!"),
   ("language_select", "🌐 Choose your language:\nType: /lang id (Indonesian)\n/lang zh (Chinese)\n/lang en (English)\n/lang vi (Vietnamese)"),
   ("help", "🤖 How to use IMIGO:\n\nType your question in any language, and I'll help you!\n\nHelp categories:\n• 💼 Work problems\n• 🏛️ Government services\n• 🏥 Health information\n• 🌐 Translation help\n• 🏠 Daily life\n• 🚨 Emergency contacts")]

/-- The `"vi"` entry of `MESSAGES` (src/config.py:94-121). -/
def messages_vi : List (String × String) :=
  [("welcome", "👋 Chào mừng đến với IMIGO!\n\nTôi là trợ lý AI giúp đỡ lao động nhập cư tại Đài Loan.\n\nTôi có thể giúp với:\n• Thông tin lao động\n• Dịch vụ chính phủ\n• Dịch thuật ngôn ngữ\n• Thông tin y tế\n• Cuộc sống hàng ngày\n\nHãy hỏi tôi bất cứ điều gì!"),
   ("cleared", "✅ Lịch sử trò chuyện đã được xóa.\nBạn có thể bắt đầu cuộc trò chuyện mới!"),
   ("language_changed", "✅ Đã đổi sang Tiếng Việt.\nTôi sẽ trả lời bằng Tiếng Việt!"),
   ("language_select", "🌐 Chọn ngôn ngữ của bạn:\nNhập: /lang id (Tiếng Indonesia)\n/lang zh (Tiếng Trung)\n/lang en (Tiếng Anh)\n/lang vi (Tiếng Việt)"),
   ("help", "🤖 Cách sử dụng IMIGO:\n\nNhập câu hỏi của bạn bằng bất kỳ ngôn ngữ nào, tôi sẽ giúp bạn!\n\nCác loại hỗ trợ:\n• 💼 Vấn đề công việc\n• 🏛️ Dịch vụ chính phủ\n• 🏥 Thông tin y tế\n• 🌐 Hỗ trợ dịch thuật\n• 🏠 Cuộc sống hàng ngày\n• 🚨 Liên hệ khẩn cấp")]

/-- `MESSAGES` (src/config.py:9-122): localized canned replies. -/
def MESSAGES : List (String × List (String × String)) :=
  [("id", messages_id), ("zh", messages_zh), ("en", messages_en),
   ("vi", messages_vi)]

/-- `SUPPORTED_LANGUAGES` key set (src/config.py:125-130). -/
def SUPPORTED_LANGUAGES : List String := ["id", "zh", "en", "vi"]

/-- `BotConfig.is_valid_language` (src/config.py:246-249): membership in
the `SUPPORTED_LANGUAGES` dict. -/
def is_valid_language (lang_code : String) : Bool :=
  SUPPORTED_LANGUAGES.contains lang_code

/-- Association-list lookup, the counterpart of Python `dict.get`. -/
def assoc_get (table : List (String × String)) (key : String) :
    Option String :=
  (table.find? (fun p => p.1 == key)).map (fun p => p.2)

/-- `BotConfig.get_message` (src/config.py:233-237):
`MESSAGES.get(lang, MESSAGES["en"]).get(key, key)`. All call sites in
`main.py` pass the language explicitly, so the `language or self.language`
defaulting is not modelled. -/
def get_message (key : String) (lang : String) : String :=
  let lang_messages :=
    ((MESSAGES.find? (fun p => p.1 == lang)).map (fun p => p.2)).getD
      messages_en
  (assoc_get lang_messages key).getD key

/-- Helper for `py_split`: scan the characters, accumulating the current
word reversed; whitespace closes a word, empty pieces are dropped. -/
def py_words_aux : List Char → List Char → List (List Char)
  | [], acc => if acc.isEmpty then [] else [acc.reverse]
  | c :: cs, acc =>
    if c.isWhitespace then
      if acc.isEmpty then py_words_aux cs []
      else acc.reverse :: py_words_aux cs []
    else py_words_aux cs (c :: acc)

/-- Python `str.split()` with no argument (src/main.py:183): split on
whitespace runs, dropping empty pieces. -/
def py_split (s : String) : List String :=
  (py_words_aux s.data []).map String.mk

/-- Python `str.strip()`: drop leading and trailing whitespace. -/
def py_strip (s : String) : String :=
  ⟨((s.data.dropWhile Char.isWhitespace).reverse.dropWhile
      Char.isWhitespace).reverse⟩

/-- Python `str.lower()` (the language data here is ASCII where it
matters). -/
def py_lower (s : String) : String :=
  ⟨s.data.map Char.toLower⟩

/-- Python `s.startswith(pre)`. -/
def py_startswith (s pre : String) : Bool :=
  pre.data.isPrefixOf s.data

/-- `AIService.error_messages` (src/services/ai_service.py:31-40). -/
def error_messages : List (String × String) :=
  [("en", "Sorry, there was an error. Please try again later."),
   ("zh", "抱歉，系統發生錯誤。請稍後再試。"),
   ("id", "Maaf, terjadi kesalahan sistem. Silakan coba lagi nanti."),
   ("vi", "Xin lỗi, có lỗi hệ thống. Vui lòng thử lại sau."),
   ("th", "ขออภัย เกิดข้อผิดพลาดของระบบ กรุณาลองใหม่ภายหลัง"),
   ("fil", "Paumanhin, may error sa sistema. Subukan muli mamaya."),
   ("my", "တောင်းပန်ပါတယ်၊ စနစ်အမှားအယွင်းရှိပါတယ်။ နောက်မှထပ်ကြိုးစားကြည့်ပါ။"),
   ("km", "សុំទោស មានកំហុសប្រព័ន្ធ។ សូមព្យាយាមម្តងទៀតនៅពេលក្រោយ។")]

/-- `self.error_messages.get(user_language, self.error_messages["en"])`
(src/services/ai_service.py:149). -/
def ai_error_message (user_language : String) : String :=
  (assoc_get error_messages user_language).getD
    "Sorry, there was an error. Please try again later."

/-- Outcome of the Gemini `generate_content` call made by
`AIService.generate_response` (src/services/ai_service.py:132-136): `ok`
carries `response.text` (before `.strip()`), `error` a raised exception
message. The prompt construction feeding the call has no effect on the
control flow modelled here. -/
inductive LLMResult where
  | ok (text : String)
  | error (msg : String)
deriving DecidableEq, Repr

/-- `AIService.generate_response` (src/services/ai_service.py:112-149).
The whole body is one `try`: on any exception — the completion call
failing, or either `save_message` write failing — the `except` branch
returns the localized static error message. A successful call strips the
response, appends the user and assistant messages to the conversation
log, and returns the stripped text. `save_user_ok` / `save_assistant_ok`
say whether the two `save_message` writes succeed; a failed write rolls
back, leaving the store unchanged. Returns (store after the call, reply
text). -/
def generate_response (db : DB) (user_id message : String)
    (llm : LLMResult) (save_user_ok save_assistant_ok : Bool) :
    DB × String :=
  match llm with
  | .error _ => (db, ai_error_message (get_user_language db user_id))
  | .ok text =>
    let ai_response := py_strip text
    if save_user_ok then
      let db1 := save_message db user_id "user" message
      if save_assistant_ok then
        (save_message db1 user_id "assistant" ai_response, ai_response)
      else
        (db1, ai_error_message (get_user_language db1 user_id))
    else
      (db, ai_error_message (get_user_language db user_id))

/-- `TranslationService.SUPPORTED_LANGUAGES` key set
(src/services/translation_service.py:15-19). -/
def TRANSLATION_SUPPORTED_LANGUAGES : List String := ["id", "zh", "en"]

/-- Membership test `lang in self.SUPPORTED_LANGUAGES`
(src/services/translation_service.py:51,55). -/
def translation_supported (lang : String) : Bool :=
  TRANSLATION_SUPPORTED_LANGUAGES.contains lang

/-- `TranslationService.translate`
(src/services/translation_service.py:36-102). Returns the input text
unchanged when the source or target language is unsupported, when they
are equal, or when the upstream chat-completion call fails
(`upstream = .error ()` also covers a `None` completion content, whose
`.strip()` raises inside the same `try`); otherwise it returns the
stripped completion content. The function is total: no exception
escapes. -/
def translate (text source_lang target_lang : String)
    (upstream : Except Unit String) : String :=
  if !(translation_supported source_lang) then text
  else if !(translation_supported target_lang) then text
  else if source_lang == target_lang then text
  else
    match upstream with
    | .ok content => py_strip content
    | .error _ => text

/-- `detect_and_update_language` (src/main.py:113-133): returns the
stored language when `get_user_language` yields a truthy value, else
`none` (the "new user" signal). Because `get_user_language` maps a
missing or empty row to `"en"`, the value is never falsy and this
function in fact never returns `none`. -/
def detect_and_update_language (db : DB) (user_id : String) :
    Option String :=
  let current_lang := get_user_language db user_id
  if current_lang != "" then some current_lang else none

/-- An observable outcome of the text-message orchestrator: a reply sent
through the LINE transport (`replyText` for a `TextMessage`, `replyFlex`
for a `FlexMessage`, identified by its `alt_text`), a collaborator
invocation (`callLLM` = `ai_service.generate_response`;
`callTranslator` would be `translation_service.translate_message` with
the call site's argument order, but no execution ever emits it — the
constructor exists so theorems can state that absence), a preference /
rich-menu update, or `uncaughtError kind`: the handler terminated by
raising an exception of that kind which escapes to the webhook's
per-event `except` (logged there; no reply was sent). -/
inductive Action where
  | replyText (text : String)
  | replyFlex (alt_text : String)
  | callLLM (user_id message : String)
  | callTranslator (text target_language source_language : String)
  | setLang (user_id language : String)
  | setRichMenu (user_id language : String)
  | uncaughtError (kind : String)
deriving DecidableEq, Repr

/-- The fall-through freeform branch of `handle_text_message`
(src/main.py:295-307): call `ai_service.generate_response` and reply
with its result. The surrounding `try`/`except` falling back to
`get_message("help", ...)` is unreachable in the model because
`generate_response` catches every exception internally
(src/services/ai_service.py:146-149) and the embedded store reads are
total; it is therefore omitted. -/
def freeform_branch (db : DB) (user_id text : String) (llm : LLMResult)
    (save_user_ok save_assistant_ok : Bool) : DB × List Action :=
  let res := generate_response db user_id text llm save_user_ok save_assistant_ok
  (res.1, [.callLLM user_id text, .replyText res.2])

/-- `handle_text_message` (src/main.py:136-307), after the
mark-as-read call (LINE API only, no observable state — omitted).
Branch order, faithful to the source: new-user check, `/lang` prefix,
`/help`, `/emergency`, `/clear` (each on `text.strip().lower()`), the
group branch, then the freeform LLM branch. `group_id` is
`getattr(event.source, "group_id", None)`. The group branch: the
`get_group_settings` call at main.py:276 sits outside any `try`, so the
`AttributeError` it raises whenever a row exists escapes the handler
(`uncaughtError`); with no row it returns `None` and
`if group_settings and group_settings.get("translate_enabled")` falls
through to the freeform branch. The translation body main.py:279-293 is
therefore unreachable; were its guard ever satisfied, its first
statement `translation_service.translate_message(...)` would raise
`AttributeError` (no such method on `TranslationService`) inside that
`try`, which logs and sends nothing — so no execution invokes a
translator or replies there. Returns the resulting store and the
ordered list of observable outcomes. -/
def handle_text_message (db : DB) (user_id text : String)
    (group_id : Option String) (llm : LLMResult)
    (save_user_ok save_assistant_ok : Bool) : DB × List Action :=
  match detect_and_update_language db user_id with
  | none =>
    -- new user: welcome flex with language-selection buttons
    (db, [.replyFlex "Welcome to IMIGO! Please select your language."])
  | some user_lang =>
    if py_startswith (py_lower (py_strip text)) "/lang" then
      let parts := py_split (py_strip text)
      if hlen : parts.length = 2 then
        let lang_code := py_lower (parts.get ⟨1, by omega⟩)
        if is_valid_language lang_code then
          -- `is_new_user = user_lang is None` is False on this path:
          -- the `none` case already returned above (src/main.py:188)
          let db1 := set_user_language db user_id lang_code
          (db1, [.setLang user_id lang_code,
                 .setRichMenu user_id lang_code,
                 .replyText (get_message "language_changed" lang_code)])
        else
          (db, [.replyText (get_message "language_select" user_lang)])
      else
        (db, [.replyText (get_message "language_select" user_lang)])
    else if py_lower (py_strip text) == "/help" then
      (db, [.replyFlex "IMIGO Help Menu - Select a category"])
    else if py_lower (py_strip text) == "/emergency" then
      (db, [.replyFlex "Emergency Contacts - Taiwan"])
    else if py_lower (py_strip text) == "/clear" then
      let res := clear_user_conversation db user_id
      (res.1, [.replyText (get_message "cleared" user_lang)])
    else
      match group_id with
      | some gid =>
        match get_group_settings db gid with
        | .error _ =>
          -- AttributeError from main.py:276, outside any try: it
          -- escapes the handler; no reply is sent
          (db, [.uncaughtError "AttributeError"])
        | .ok (some settings) =>
          -- no execution reaches here (`.ok (some _)` is outside the
          -- image of get_group_settings); modelled anyway: the
          -- translate_message call raises AttributeError inside the
          -- try at main.py:279-293 — logged, no reply, no actions
          if settings.translate_enabled then
            (db, [])
          else
            freeform_branch db user_id text llm save_user_ok save_assistant_ok
        | .ok none =>
          freeform_branch db user_id text llm save_user_ok save_assistant_ok
      | none =>
        freeform_branch db user_id text llm save_user_ok save_assistant_ok

/-- The command shapes `handle_text_message` intercepts before its group
and freeform branches (the four guard conditions of
src/main.py:182-271). -/
def recognized_command (text : String) : Bool :=
  py_startswith (py_lower (py_strip text)) "/lang" ||
    py_lower (py_strip text) == "/help" ||
    py_lower (py_strip text) == "/emergency" ||
    py_lower (py_strip text) == "/clear"

/-- A parsed LINE webhook event as dispatched by `handle_message` /
`webhook` (src/main.py:424-459): a text message event, a postback event,
or any other event type (logged and ignored). -/
inductive LineEvent where
  | message (user_id text : String)
  | postbackEvent (user_id data : String)
  | otherEvent (kind : String)
deriving DecidableEq, Repr

/-- The HTTP outcome of the `/webhook` endpoint (src/main.py:434-470):
the JSON body `\x7b"status": "ok"\x7d`, the 400 raised on an invalid
signature, or the 500 raised when something outside the per-event loop
fails. -/
inductive WebhookResponse where
  | statusOk
  | invalidSignature400
  | internalError500
deriving DecidableEq, Repr

/-- The per-event loop of `webhook` (src/main.py:452-462): each event is
handled inside its own `try`; an exception from handling one event is
logged (`.error msg` contributes `msg` to the returned log) and the loop
continues with the remaining events. -/
def process_events (handle : LineEvent → Except String Unit) :
    List LineEvent → List String
  | [] => []
  | e :: rest =>
    match handle e with
    | .ok _ => process_events handle rest
    | .error msg => msg :: process_events handle rest

/-- `webhook` (src/main.py:434-470). `parse_result` is the outcome of
`parser.parse(body, signature)`: `.error` models
`InvalidSignatureError`, mapped to HTTP 400. With a valid signature the
endpoint runs the per-event loop — whose per-event `try`/`except`
swallows every handler exception — and returns `\x7b"status": "ok"\x7d`.
The outer `except` (HTTP 500) only guards code outside the loop and is
unreachable once parsing succeeded. -/
def webhook (parse_result : Except Unit (List LineEvent))
    (handle : LineEvent → Except String Unit) : WebhookResponse :=
  match parse_result with
  | .error _ => .invalidSignature400
  | .ok events =>
    let _error_logs := process_events handle events
    .statusOk

theorem get_user_language_not_empty (db : DB) (user_id : String) :
    (get_user_language db user_id != "") = true := by
  unfold get_user_language
  cases h : lookup_user_language db user_id with
  | none => decide
  | some lang =>
    by_cases he : (lang == "") = true
    · simp [he]
    · simp only [Bool.not_eq_true] at he
      simp [he, bne]

theorem detect_eq_some (db : DB) (user_id : String) :
    detect_and_update_language db user_id =
      some (get_user_language db user_id) := by
  unfold detect_and_update_language
  simp [get_user_language_not_empty db user_id]

/-- C1: the claim says a user with no stored language preference who
sends a freeform text never reaches the LLM collaborator and gets a
language-selection prompt instead. The code does the opposite — this
theorem evaluates the orchestrator at the failing input: a user with no
preference row sends "hello" in a 1:1 chat, the LLM collaborator IS
invoked with that text, and the language-selection welcome flex is NOT
sent. Root cause: `get_user_language` returns `"en"` instead of `None`
for a missing row (src/database/database.py:92), contradicting
`detect_and_update_language`'s own docstring (src/main.py:116-123) and
the repository's test `test_set_and_get_user_language`
(src/tests/test_database.py:77-78), so the new-user branch is dead
code. -/
theorem C1_new_user_freeform_reaches_llm :
    (Action.callLLM "Unew" "hello") ∈
      (handle_text_message ⟨[], [], []⟩ "Unew" "hello" none
        (.ok "Hi!") true true).2 ∧
    (Action.replyFlex "Welcome to IMIGO! Please select your language.") ∉
      (handle_text_message ⟨[], [], []⟩ "Unew" "hello" none
        (.ok "Hi!") true true).2 := by
  decide

/-- C2: the claim (and the spec, and the repository's own test
src/tests/test_database.py:77-78) says `get_user_language` returns
`None` for a user for whom no preference row was ever written. The code
returns `"en"`: evaluated at a store holding a row only for a different
user, the raw lookup is `none` yet the function returns `"en"`. -/
theorem C2_get_language_missing_row_returns_en :
    lookup_user_language ⟨[("someone_else", "zh")], [], []⟩ "Ufresh" = none ∧
    get_user_language ⟨[("someone_else", "zh")], [], []⟩ "Ufresh" = "en" := by
  decide

/-- C8: for every user and positive limit `K`, the recent window
returned by `get_conversation_history` has at most `K` entries, is a
suffix of the user's full chronological history (hence oldest-first),
equals the `K` most recent entries, and is the whole history when fewer
than `K` entries exist. -/
theorem C8_recent_window_is_suffix (db : DB) (user_id : String) (K : Nat)
    (hK : 0 < K) :
    (get_conversation_history db user_id K).length ≤ K ∧
    get_conversation_history db user_id K <:+ user_history db user_id ∧
    get_conversation_history db user_id K =
      (user_history db user_id).drop
        ((user_history db user_id).length - K) ∧
    ((user_history db user_id).length ≤ K →
      get_conversation_history db user_id K = user_history db user_id) := by
  have key : get_conversation_history db user_id K =
      (user_history db user_id).drop
        ((user_history db user_id).length - K) := by
    show ((user_history db user_id).reverse.take K).reverse = _
    rw [List.take_reverse, List.reverse_reverse]
  refine ⟨?_, ?_, key, ?_⟩
  · rw [key, List.length_drop]
    omega
  · rw [key]
    exact List.drop_suffix _ _
  · intro hle
    rw [key, Nat.sub_eq_zero_of_le hle, List.drop_zero]

/-- C8 witness: the theorem applied at a concrete store and `K = 2`. -/
theorem C8_recent_window_is_suffix_witness :
    0 < 2 ∧
    ((get_conversation_history
        ⟨[], [⟨"u", "user", "a"⟩, ⟨"u", "assistant", "b"⟩,
              ⟨"v", "user", "x"⟩, ⟨"u", "user", "c"⟩], []⟩ "u" 2).length ≤ 2 ∧
     get_conversation_history
        ⟨[], [⟨"u", "user", "a"⟩, ⟨"u", "assistant", "b"⟩,
              ⟨"v", "user", "x"⟩, ⟨"u", "user", "c"⟩], []⟩ "u" 2 <:+
       user_history
        ⟨[], [⟨"u", "user", "a"⟩, ⟨"u", "assistant", "b"⟩,
              ⟨"v", "user", "x"⟩, ⟨"u", "user", "c"⟩], []⟩ "u" ∧
     get_conversation_history
        ⟨[], [⟨"u", "user", "a"⟩, ⟨"u", "assistant", "b"⟩,
              ⟨"v", "user", "x"⟩, ⟨"u", "user", "c"⟩], []⟩ "u" 2 =
       (user_history
        ⟨[], [⟨"u", "user", "a"⟩, ⟨"u", "assistant", "b"⟩,
              ⟨"v", "user", "x"⟩, ⟨"u", "user", "c"⟩], []⟩ "u").drop
         ((user_history
        ⟨[], [⟨"u", "user", "a"⟩, ⟨"u", "assistant", "b"⟩,
              ⟨"v", "user", "x"⟩, ⟨"u", "user", "c"⟩], []⟩ "u").length - 2) ∧
     ((user_history
        ⟨[], [⟨"u", "user", "a"⟩, ⟨"u", "assistant", "b"⟩,
              ⟨"v", "user", "x"⟩, ⟨"u", "user", "c"⟩], []⟩ "u").length ≤ 2 →
       get_conversation_history
        ⟨[], [⟨"u", "user", "a"⟩, ⟨"u", "assistant", "b"⟩,
              ⟨"v", "user", "x"⟩, ⟨"u", "user", "c"⟩], []⟩ "u" 2 =
         user_history
        ⟨[], [⟨"u", "user", "a"⟩, ⟨"u", "assistant", "b"⟩,
              ⟨"v", "user", "x"⟩, ⟨"u", "user", "c"⟩], []⟩ "u")) :=
  ⟨by decide,
   C8_recent_window_is_suffix
     ⟨[], [⟨"u", "user", "a"⟩, ⟨"u", "assistant", "b"⟩,
           ⟨"v", "user", "x"⟩, ⟨"u", "user", "c"⟩], []⟩ "u" 2 (by decide)⟩

/-- C9: once the signature validates (`parse_result = .ok events`), the
webhook endpoint answers `statusOk` whatever the per-event handler does:
each event is processed inside its own try/except, an exception from one
event is logged and the loop continues, so handler failures never become
an HTTP error. The second conjunct pins the per-event loop down: it logs
exactly the error of every failing event, in order. -/
theorem C9_webhook_ok_despite_event_errors (events : List LineEvent)
    (handle : LineEvent → Except String Unit) :
    webhook (.ok events) handle = .statusOk ∧
    process_events handle events =
      events.filterMap
        (fun e =>
          match handle e with
          | .ok _ => none
          | .error msg => some msg) := by
  refine ⟨rfl, ?_⟩
  induction events with
  | nil => rfl
  | cons e rest ih =>
    simp only [process_events, List.filterMap_cons]
    cases handle e with
    | ok _ => simpa using ih
    | error msg => simpa using ih

/-- C10: the translator returns its input unchanged (and, being a total
function, raises nothing) whenever the source equals the target,
either language is outside its supported set, or the upstream completion
fails; in particular `translate text l l upstream = text` for every
`l`. -/
theorem C10_translate_identity (text source_lang target_lang : String)
    (upstream : Except Unit String)
    (h : source_lang = target_lang ∨
         translation_supported source_lang = false ∨
         translation_supported target_lang = false ∨
         upstream = .error ()) :
    translate text source_lang target_lang upstream = text := by
  unfold translate
  rcases h with h | h | h | h
  · subst h
    by_cases hs : translation_supported source_lang <;> simp [hs]
  · simp [h]
  · simp [h]
  · subst h
    by_cases hs : translation_supported source_lang <;>
      by_cases ht : translation_supported target_lang <;>
        by_cases hst : (source_lang == target_lang) = true <;>
          simp [hs, ht, hst]

/-- C10 witness: same-language translation is the identity even when the
upstream would have produced something else. -/
theorem C10_translate_identity_witness :
    translate "hola" "en" "en" (.ok "whatever") = "hola" :=
  C10_translate_identity "hola" "en" "en" (.ok "whatever") (Or.inl rfl)

/-- C3 counterexample: the claim says every `/`-message that is not a
recognized command gets a usage/help reply and never reaches the LLM.
At the concrete input `"/translate on zh"` (a command the spec itself
lists) in a 1:1 chat, the orchestrator calls the LLM collaborator with
exactly that text and replies with the LLM output — there is no
usage/help fallback. -/
theorem C3_unrecognized_slash_reaches_llm :
    (handle_text_message ⟨[("U3", "en")], [], []⟩ "U3" "/translate on zh"
        none (.ok "resp") true true).2 =
      [Action.callLLM "U3" "/translate on zh", Action.replyText "resp"] := by
  decide

/-- C3 as amended: only the `/lang` prefix and the exact commands
`/help`, `/emergency`, `/clear` (on the trimmed, lower-cased text) are
intercepted; any other message — `/`-prefixed or not — falls through to
the LLM collaborator in a 1:1 chat. -/
theorem C3_amended_unrecognized_goes_to_llm (db : DB)
    (user_id text : String) (llm : LLMResult)
    (save_user_ok save_assistant_ok : Bool)
    (h : recognized_command text = false) :
    (Action.callLLM user_id text) ∈
      (handle_text_message db user_id text none llm
        save_user_ok save_assistant_ok).2 := by
  unfold handle_text_message
  rw [detect_eq_some]
  simp only [recognized_command, Bool.or_eq_false_iff] at h
  obtain ⟨⟨⟨h1, h2⟩, h3⟩, h4⟩ := h
  simp [h1, h2, h3, h4, freeform_branch]

/-- C3 witness: the amended theorem applied at the unrecognized command
`"/foo"`. -/
theorem C3_amended_witness :
    recognized_command "/foo" = false ∧
    (Action.callLLM "u" "/foo") ∈
      (handle_text_message ⟨[], [], []⟩ "u" "/foo" none (.ok "r")
        true true).2 :=
  ⟨by decide,
   C3_amended_unrecognized_goes_to_llm ⟨[], [], []⟩ "u" "/foo" (.ok "r")
     true true (by decide)⟩

/-- C4: the claim says a message in a translation-enabled group is
routed to the translation collaborator as `(text, t, "auto")` with no
conversation-log write and no command interception. The program cannot
do any of this. (1) Universally: no input whatsoever makes the
orchestrator emit a translator invocation — `TranslationService` has no
`translate_message` method and the branch that would call it is
unreachable. (2) At the claim's own scenario (non-command `"hello"` in a
group with a stored settings row), `get_group_settings` raises
`AttributeError` (models.GroupSettings defines `translation_enabled`,
not the `translate_enabled`/`enabled_by` that database.py reads) outside
any `try` at main.py:276, so the handler aborts with no reply. (3) The
raw store reads/writes confirm the breakage: `get_group_settings` errors
exactly when a row exists, and `enable_group_translation` errors on
insert (its kwargs are not columns), so this service can never create a
row — all contradicting the repository's own test
`test_group_translation_settings` (src/tests/test_database.py:92-117). -/
theorem C4_group_translation_broken (db : DB) (user_id text : String)
    (group_id : Option String) (llm : LLMResult)
    (save_user_ok save_assistant_ok : Bool) (t tgt src : String) :
    ((Action.callTranslator t tgt src) ∉
      (handle_text_message db user_id text group_id llm
        save_user_ok save_assistant_ok).2) ∧
    (handle_text_message ⟨[("U4", "en")], [],
        [⟨"G1", true, some "zh"⟩]⟩ "U4" "hello" (some "G1")
        (.ok "x") true true).2 = [Action.uncaughtError "AttributeError"] ∧
    get_group_settings ⟨[("U4", "en")], [], [⟨"G1", true, some "zh"⟩]⟩ "G1"
      = .error () ∧
    enable_group_translation ⟨[], [], []⟩ "G1" "zh" "U0" = .error () := by
  refine ⟨?_, by decide, rfl, rfl⟩
  intro hmem
  unfold handle_text_message freeform_branch at hmem
  rw [detect_eq_some] at hmem
  simp only [] at hmem
  repeat' split at hmem
  all_goals simp_all

/-- C5 counterexample: the claim says a store write with an unsupported
code fails with `InvalidLanguage` and leaves the prior preference
unchanged. `set_user_language` performs no validation: with `"xx"`
outside the supported set it succeeds and overwrites the prior `"id"`
preference with the free-text `"xx"`. -/
theorem C5_set_language_stores_free_text :
    set_user_language ⟨[("U5", "id")], [], []⟩ "U5" "xx" =
      ⟨[("U5", "xx")], [], []⟩ ∧
    get_user_language (set_user_language ⟨[("U5", "id")], [], []⟩ "U5" "xx")
        "U5" = "xx" ∧
    is_valid_language "xx" = false := by
  decide

/-- C5 as amended: the store itself accepts any string, but the language
codes the LINE text handler ever stores are validated: whenever
`handle_text_message` performs a preference write (a `setLang` action),
the written code is in the fixed supported set, because the `/lang`
branch checks `is_valid_language` first. (The REST chat route
`src/api/routes/chat.py:66-90` has no such guard and can persist
arbitrary codes.) -/
theorem C5_amended_handler_writes_supported_only (db : DB)
    (user_id text : String) (group_id : Option String) (llm : LLMResult)
    (save_user_ok save_assistant_ok : Bool)
    (u c : String)
    (h : (Action.setLang u c) ∈
      (handle_text_message db user_id text group_id llm
        save_user_ok save_assistant_ok).2) :
    is_valid_language c = true := by
  unfold handle_text_message freeform_branch at h
  rw [detect_eq_some] at h
  simp only [] at h
  repeat' split at h
  all_goals simp_all

/-- C5 witness: the amended theorem applied to `/lang zh`, whose
`setLang` write carries the supported code `"zh"`. -/
theorem C5_amended_witness :
    ((Action.setLang "U" "zh") ∈
      (handle_text_message ⟨[("U", "en")], [], []⟩ "U" "/lang zh" none
        (.ok "x") true true).2) ∧
    is_valid_language "zh" = true :=
  ⟨by decide,
   C5_amended_handler_writes_supported_only ⟨[("U", "en")], [], []⟩ "U"
     "/lang zh" none (.ok "x") true true "U" "zh" (by decide)⟩

/-- C6 counterexample: the claim says that when the LLM call succeeds
and a following conversation-log write fails, the generated reply is
still returned. In the code the failed `save_message` throws into the
same `try` that wrapped the LLM call, so the user gets the localized
static error message instead of the already-generated reply. -/
theorem C6_log_failure_drops_reply :
    py_strip "Hello!" = "Hello!" ∧
    (generate_response ⟨[], [], []⟩ "U6" "hi" (.ok "Hello!") false true).2 =
      "Sorry, there was an error. Please try again later." ∧
    (generate_response ⟨[], [], []⟩ "U6" "hi" (.ok "Hello!") false true).2 ≠
      "Hello!" := by
  decide

/-- C6 as amended: when the LLM call succeeds but either conversation-log
append fails, the exception is caught (nothing propagates) and the
returned reply is the localized static error message — not the generated
text. -/
theorem C6_amended_log_failure_returns_error_message (db : DB)
    (user_id message text : String) (save_user_ok save_assistant_ok : Bool)
    (h : (save_user_ok && save_assistant_ok) = false) :
    (generate_response db user_id message (.ok text)
        save_user_ok save_assistant_ok).2 =
      ai_error_message (get_user_language db user_id) := by
  cases save_user_ok <;> cases save_assistant_ok <;>
    simp_all [generate_response, save_message, get_user_language,
      lookup_user_language]

/-- C6 witness: the amended theorem applied with the first log write
failing. -/
theorem C6_amended_witness :
    ((false && true) = false) ∧
    (generate_response ⟨[], [], []⟩ "u" "hi" (.ok "Hello!") false true).2 =
      ai_error_message (get_user_language ⟨[], [], []⟩ "u") :=
  ⟨by decide,
   C6_amended_log_failure_returns_error_message ⟨[], [], []⟩ "u" "hi"
     "Hello!" false true (by decide)⟩

/-- C7 counterexample: the claim says an LLM failure on a freeform
message yields the localized static HELP text. The failure is caught
inside `generate_response`, which returns the AI service's localized
ERROR message; the handler's own help-text fallback is never reached.
Evaluated for an English-preferring user: the reply is the error
message, which differs from `get_message "help" "en"`. -/
theorem C7_llm_error_reply_is_error_message :
    (handle_text_message ⟨[("U7", "en")], [], []⟩ "U7" "hello" none
        (.error "upstream boom") true true).2 =
      [Action.callLLM "U7" "hello",
       Action.replyText "Sorry, there was an error. Please try again later."] ∧
    "Sorry, there was an error. Please try again later." ≠
      get_message "help" "en" := by
  decide

/-- C7 as amended: on any non-command freeform 1:1 message where the LLM
collaborator fails, the user receives the AI service's localized static
error message as the reply (one reply, no exception reaches the
transport). -/
theorem C7_amended_llm_error_returns_error_message (db : DB)
    (user_id text e : String) (save_user_ok save_assistant_ok : Bool)
    (h : recognized_command text = false) :
    (handle_text_message db user_id text none (.error e)
        save_user_ok save_assistant_ok).2 =
      [Action.callLLM user_id text,
       Action.replyText (ai_error_message (get_user_language db user_id))] := by
  unfold handle_text_message freeform_branch generate_response
  rw [detect_eq_some]
  simp only [recognized_command, Bool.or_eq_false_iff] at h
  obtain ⟨⟨⟨h1, h2⟩, h3⟩, h4⟩ := h
  simp [h1, h2, h3, h4]

/-- C7 witness: the amended theorem applied at a concrete failing LLM
call. -/
theorem C7_amended_witness :
    recognized_command "hello" = false ∧
    (handle_text_message ⟨[("U7", "en")], [], []⟩ "U7" "hello" none
        (.error "boom") true true).2 =
      [Action.callLLM "U7" "hello",
       Action.replyText
         (ai_error_message (get_user_language ⟨[("U7", "en")], [], []⟩ "U7"))] :=
  ⟨by decide,
   C7_amended_llm_error_returns_error_message ⟨[("U7", "en")], [], []⟩ "U7"
     "hello" "boom" true true (by decide)⟩

end Imigo
